import Mathlib

/-!
Verification of django-sniplates (`sniplates/templatetags/sniplates.py`).

Shallow embedding of the widget resolution & block-composition engine:
block registries (Django's `BlockContext`, specified at its interface in
the spec, section 3), the render-context stack (Django's `RenderContext`,
whose lookups see only the topmost dict), template-document inheritance
chains, and the tag implementations `resolve_blocks`, `parse_widget_name`,
`using`, `find_block`, `load_widgets`, `auto_widget`, `reuse` and
`NestedWidget.render`.

Python exceptions are modelled with `Except`; where the raised exception
propagates out of mutated state (the render-context stack), the error
carries the state at raise time, mirroring the fact that Python mutations
survive exception propagation.
-/

set_option autoImplicit false

namespace Sniplates

/-! ## Association lists standing for Python dicts

A Python dict is modelled as a `List (String × V)` in key-insertion order:
`alistGet` is `d[k]` (first, and only, binding of the key), `alistSet` is
`d[k] = v` (replace in place, keeping the key's position, else append).
-/

def alistGet {V : Type} : List (String × V) → String → Option V
  | [], _ => none
  | (k', v) :: rest, k => if k' = k then some v else alistGet rest k

def alistSet {V : Type} : List (String × V) → String → V → List (String × V)
  | [], k, v => [(k, v)]
  | (k', v') :: rest, k, v =>
    if k' = k then (k', v) :: rest else (k', v') :: alistSet rest k v

theorem alistGet_alistSet_self {V : Type} (m : List (String × V)) (k : String) (v : V) :
    alistGet (alistSet m k v) k = some v := by
  induction m with
  | nil => simp [alistGet, alistSet]
  | cons hd tl ih =>
    by_cases h : hd.1 = k
    · simp [alistSet, alistGet, h]
    · simp [alistSet, alistGet, h, ih]

theorem alistGet_alistSet_ne {V : Type} (m : List (String × V)) (k k' : String) (v : V)
    (h : k ≠ k') : alistGet (alistSet m k v) k' = alistGet m k' := by
  induction m with
  | nil => simp [alistGet, alistSet, h]
  | cons hd tl ih =>
    by_cases hk : hd.1 = k
    · simp [alistSet, alistGet, hk, h]
    · by_cases hk' : hd.1 = k'
      · simp [alistSet, alistGet, hk, hk', Ne.symm h]
      · simp [alistSet, alistGet, hk, hk', ih]

/-- Python `repr` of a plain string (no escaping needed for the identifiers
involved here): surround with single quotes.  Used for `%r` formatting. -/
def pyRepr (s : String) : String := "\x27" ++ s ++ "\x27"

/-- Python `repr` of a tuple of strings, as produced by `'%r' % (names,)`:
`()`, `('a',)`, `('a', 'b')`, ... -/
def pyReprStrTuple : List String → String
  | [] => "()"
  | [n] => "(" ++ pyRepr n ++ ",)"
  | names => "(" ++ String.intercalate ", " (names.map pyRepr) ++ ")"

/-- The exceptions the module raises.  Every explicit `raise` in
`sniplates.py` constructs `django.template.TemplateSyntaxError`; the
distinct failure kinds of the spec's taxonomy (section 7) are told apart
by the message.  `keyError` models an uncaught Python `KeyError` from a
dict subscript. -/
inductive SnipError where
  | templateSyntaxError (msg : String)
  | keyError (key : String)
deriving DecidableEq, Repr

/-! ## `parse_widget_name` (sniplates.py lines 77-88)

`widget.split(':', 1)` splits at the first `':'` only; with no `':'` the
two-element unpacking raises `ValueError`, turned into a
`TemplateSyntaxError`. -/

/-- `s.split(':', 1)` on the character list: `none` when no `':'` occurs,
otherwise the part before the first `':'` and everything after it. -/
def splitFirstColon : List Char → Option (List Char × List Char)
  | [] => none
  | c :: rest =>
    if c = ':' then some ([], rest)
    else (splitFirstColon rest).map (fun p => (c :: p.1, p.2))

def parse_widget_name (widget : String) : Except SnipError (String × String) :=
  match splitFirstColon widget.data with
  | none => .error (.templateSyntaxError
      ("widget name must be \"alias:block_name\" - " ++ widget))
  | some (a, b) => .ok (⟨a⟩, ⟨b⟩)

/-! ## `auto_widget` (sniplates.py lines 347-367)

The three attributes taken from the bound form field. -/

structure FieldInfo where
  widget : String
  field : String
  name : String
deriving DecidableEq, Repr

/-- `auto_widget(field)`: the seven format templates
`'\x7bfield\x7d_\x7bwidget\x7d_\x7bname\x7d'` ... `'\x7bfield\x7d'`
instantiated with the field's info dict, in source order. -/
def auto_widget (info : FieldInfo) : List String :=
  [ info.field ++ "_" ++ info.widget ++ "_" ++ info.name,
    info.field ++ "_" ++ info.name,
    info.widget ++ "_" ++ info.name,
    info.field ++ "_" ++ info.widget,
    info.name,
    info.widget,
    info.field ]

/-! ## Theorems for C7 and C10 -/

/-- C7: for every bound form field exposing widget-kind `w`, field-kind `f`
and name `n`, automatic widget-name derivation returns exactly the seven
candidates `f_w_n, f_n, w_n, f_w, n, w, f` in that order. -/
theorem auto_widget_seven_candidates (w f n : String) :
    auto_widget ⟨w, f, n⟩ =
      [ f ++ "_" ++ w ++ "_" ++ n,
        f ++ "_" ++ n,
        w ++ "_" ++ n,
        f ++ "_" ++ w,
        n,
        w,
        f ] := rfl

theorem splitFirstColon_none (l : List Char) (h : ':' ∉ l) :
    splitFirstColon l = none := by
  induction l with
  | nil => rfl
  | cons c rest ih =>
    simp only [List.mem_cons, not_or] at h
    have hc : c ≠ ':' := fun hc => h.1 hc.symm
    simp [splitFirstColon, hc, ih h.2]

theorem splitFirstColon_append (a b : List Char) (h : ':' ∉ a) :
    splitFirstColon (a ++ ':' :: b) = some (a, b) := by
  induction a with
  | nil => simp [splitFirstColon]
  | cons c rest ih =>
    simp only [List.mem_cons, not_or] at h
    have hc : c ≠ ':' := fun hc => h.1 hc.symm
    simp [splitFirstColon, hc, ih h.2]

/-- C10: a widget-reference string without `':'` is a hard syntax error;
otherwise the string splits at the first `':'` only, the (possibly empty)
prefix becoming the alias and the whole remainder — further `':'`s
included — the block name. -/
theorem parse_widget_name_spec (w a b : String) :
    (':' ∉ w.data →
      parse_widget_name w = .error (.templateSyntaxError
        ("widget name must be \"alias:block_name\" - " ++ w))) ∧
    (':' ∉ a.data → parse_widget_name (a ++ ":" ++ b) = .ok (a, b)) := by
  constructor
  · intro h
    unfold parse_widget_name
    rw [splitFirstColon_none w.data h]
  · intro h
    unfold parse_widget_name
    have hdata : (a ++ ":" ++ b).data = a.data ++ ':' :: b.data := by
      simp [String.data_append]
    rw [hdata, splitFirstColon_append a.data b.data h]

/-- Witness for C10 at concrete inputs: `"noColon"` raises, and
`":x:y"` parses to the empty alias and block name `"x:y"` (the second
colon is kept in the block name). -/
theorem parse_widget_name_spec_witness :
    parse_widget_name "noColon" = .error (.templateSyntaxError
        ("widget name must be \"alias:block_name\" - " ++ "noColon")) ∧
    parse_widget_name ("" ++ ":" ++ "x:y") = .ok ("", "x:y") :=
  ⟨(parse_widget_name_spec "noColon" "" "").1 (by decide),
   (parse_widget_name_spec "noColon" "" "x:y").2 (by decide)⟩

/-! ## Block registry: Django's `BlockContext`

Host-engine collaborator (spec sections 2-3): a mapping name → list of
definitions, where `add_blocks` *prepends* (`insert(0, ...)`) each new
block to its name's list and `get_block` returns the *last* element, so
the first-added (most specific) layer wins.  A block node is its name
plus an opaque renderable body, identified here by a number. -/

structure BlockNode where
  name : String
  body : Nat
deriving DecidableEq, Repr

structure BlockContext where
  blocks : List (String × List BlockNode)
deriving DecidableEq, Repr

def BlockContext.empty : BlockContext := ⟨[]⟩

/-- `BlockContext.add_blocks`: for each `(name, block)` of the dict,
`self.blocks[name].insert(0, block)`. -/
def BlockContext.add_blocks (bc : BlockContext) (localBlocks : List (String × BlockNode)) :
    BlockContext :=
  localBlocks.foldl
    (fun bc nb =>
      ⟨alistSet bc.blocks nb.1 (nb.2 :: (alistGet bc.blocks nb.1).getD [])⟩)
    bc

/-- `BlockContext.get_block`: `self.blocks[name][-1]`, `None` when the name
is absent or its list empty. -/
def BlockContext.get_block (bc : BlockContext) (name : String) : Option BlockNode :=
  ((alistGet bc.blocks name).getD []).getLast?

/-! ## Template documents and `resolve_blocks` (sniplates.py lines 39-74)

A template document is its list of `BlockNode`s (in nodelist order) plus
at most one `extends` parent ("Can only have one extends in a template").
The dict comprehension `dict((block.name, block) for block in ...)` keeps
one entry per name, the last occurrence winning. -/

inductive TemplateDoc where
  | base (localNodes : List BlockNode)
  | extends_ (localNodes : List BlockNode) (parent : TemplateDoc)
deriving DecidableEq, Repr

def TemplateDoc.localNodes : TemplateDoc → List BlockNode
  | .base ns => ns
  | .extends_ ns _ => ns

/-- The Python dict comprehension over the document's block nodes: an
assoc list with unique keys, last write for a name winning in place. -/
def dictOfNodes (nodes : List BlockNode) : List (String × BlockNode) :=
  nodes.foldl (fun d b => alistSet d b.name b) []

/-- The recursive body of `resolve_blocks`: add this template's blocks as
the first (most specific) layer, then fold the parent chain in as
subsequent layers.  The Python code mutates one shared `BlockContext`
fetched from the render context; here that object is threaded
explicitly. -/
def resolve_blocksChain : TemplateDoc → BlockContext → BlockContext
  | .base nodes, bc => bc.add_blocks (dictOfNodes nodes)
  | .extends_ nodes parent, bc =>
    resolve_blocksChain parent (bc.add_blocks (dictOfNodes nodes))

/-! ## Lemmas: first-added layer wins in a `BlockContext` -/

theorem getLast?_cons_of_getLast? {α : Type} (a : α) (l : List α) (b : α)
    (h : l.getLast? = some b) : (a :: l).getLast? = some b := by
  cases l with
  | nil => simp at h
  | cons c t => rw [List.getLast?_cons_cons]; exact h

/-- Adding further blocks never changes the result of `get_block` for a
name that already resolves: the new definitions are prepended, while
lookup takes the last element. -/
theorem get_block_add_blocks_preserved (bc : BlockContext) (l : List (String × BlockNode))
    (n : String) (b : BlockNode) (h : bc.get_block n = some b) :
    (bc.add_blocks l).get_block n = some b := by
  induction l generalizing bc with
  | nil => exact h
  | cons hd tl ih =>
    have step :
        (BlockContext.mk (alistSet bc.blocks hd.1
          (hd.2 :: (alistGet bc.blocks hd.1).getD []))).get_block n = some b := by
      by_cases hk : hd.1 = n
      · subst hk
        unfold BlockContext.get_block at h ⊢
        rw [alistGet_alistSet_self]
        exact getLast?_cons_of_getLast? _ _ _ h
      · unfold BlockContext.get_block at h ⊢
        rw [alistGet_alistSet_ne _ _ _ _ hk]
        exact h
    exact ih _ step

/-- If a name does not yet resolve and the added dict binds it (first
binding, as `alistGet` finds it), afterwards `get_block` returns that
binding. -/
theorem get_block_add_blocks_new (bc : BlockContext) (l : List (String × BlockNode))
    (n : String) (b : BlockNode) (hnone : bc.get_block n = none)
    (hget : alistGet l n = some b) :
    (bc.add_blocks l).get_block n = some b := by
  induction l generalizing bc with
  | nil => simp [alistGet] at hget
  | cons hd tl ih =>
    have hstep : bc.add_blocks (hd :: tl) =
        (BlockContext.mk (alistSet bc.blocks hd.1
          (hd.2 :: (alistGet bc.blocks hd.1).getD []))).add_blocks tl := rfl
    rw [hstep]
    by_cases hk : hd.1 = n
    · subst hk
      have hb : hd.2 = b := by
        simpa [alistGet] using hget
      subst hb
      apply get_block_add_blocks_preserved
      unfold BlockContext.get_block at hnone ⊢
      rw [alistGet_alistSet_self]
      have hempty : (alistGet bc.blocks hd.1).getD [] = [] := by
        cases hl : (alistGet bc.blocks hd.1).getD [] with
        | nil => rfl
        | cons x xs =>
          rw [hl] at hnone
          simp [List.getLast?_eq_none_iff] at hnone
      rw [hempty]
      rfl
    · have hget' : alistGet tl n = some b := by
        simpa [alistGet, hk] using hget
      apply ih _ _ hget'
      unfold BlockContext.get_block at hnone ⊢
      rw [alistGet_alistSet_ne _ _ _ _ hk]
      exact hnone

/-- A resolved name survives folding in the rest of an inheritance
chain. -/
theorem get_block_resolve_blocksChain_preserved (doc : TemplateDoc) (bc : BlockContext)
    (n : String) (b : BlockNode) (h : bc.get_block n = some b) :
    (resolve_blocksChain doc bc).get_block n = some b := by
  induction doc generalizing bc with
  | base nodes =>
    exact get_block_add_blocks_preserved _ _ _ _ h
  | extends_ nodes parent ih =>
    exact ih _ (get_block_add_blocks_preserved _ _ _ _ h)

/-- C2: resolving a document's registry folds each document of the
inheritance chain in as one layer, most specific first: a block name the
most-derived document defines locally resolves to that definition, no
matter what any ancestor (at arbitrary depth) defines under the same
name. -/
theorem resolve_blocks_most_specific_wins (doc : TemplateDoc) (n : String) (b : BlockNode)
    (h : alistGet (dictOfNodes doc.localNodes) n = some b) :
    (resolve_blocksChain doc BlockContext.empty).get_block n = some b := by
  have hempty : BlockContext.empty.get_block n = none := rfl
  cases doc with
  | base nodes =>
    exact get_block_add_blocks_new _ _ _ _ hempty h
  | extends_ nodes parent =>
    exact get_block_resolve_blocksChain_preserved parent _ _ _
      (get_block_add_blocks_new _ _ _ _ hempty h)

/-- Witness for C2 at a concrete three-document chain `A extends B
extends C`: `C` defines `x` (body 0), `B` defines only `y`, `A`
redefines `x` (body 2); resolving `A` and looking up `x` returns `A`'s
definition. -/
theorem resolve_blocks_most_specific_wins_witness :
    (resolve_blocksChain
        (.extends_ [⟨"x", 2⟩]
          (.extends_ [⟨"y", 1⟩]
            (.base [⟨"x", 0⟩, ⟨"y", 9⟩])))
        BlockContext.empty).get_block "x" = some ⟨"x", 2⟩ :=
  resolve_blocks_most_specific_wins
    (.extends_ [⟨"x", 2⟩] (.extends_ [⟨"y", 1⟩] (.base [⟨"x", 0⟩, ⟨"y", 9⟩])))
    "x" ⟨"x", 2⟩ (by decide)

/-! ## The render context: Django's `RenderContext`

A stack of dicts of which **only the topmost is readable** (`__getitem__`,
`get`, `__contains__` all consult `self.dicts[-1]` only); `push` appends
an empty dict, `pop` drops the topmost, `__setitem__` writes into the
topmost.  The module only ever stores two keys, `BLOCK_CONTEXT_KEY`
(`'block_context'`) and `WIDGET_CONTEXT_KEY` (`'_widgets_'`), so a layer
is a record of those two optional entries.  List head = topmost dict. -/

structure RCLayer where
  blockContext : Option BlockContext
  widgets : Option (List (String × BlockContext))
deriving DecidableEq, Repr

def RCLayer.empty : RCLayer := ⟨none, none⟩

abbrev RenderContext := List RCLayer

/-- `context.render_context[BLOCK_CONTEXT_KEY]` (topmost dict only). -/
def RenderContext.get_bc : RenderContext → Option BlockContext
  | [] => none
  | l :: _ => l.blockContext

/-- `context.render_context[BLOCK_CONTEXT_KEY] = bc` (writes topmost dict). -/
def RenderContext.set_bc : RenderContext → BlockContext → RenderContext
  | [], bc => [{ blockContext := some bc, widgets := none }]
  | l :: rest, bc => { l with blockContext := some bc } :: rest

/-- `context.render_context[WIDGET_CONTEXT_KEY]` (topmost dict only). -/
def RenderContext.get_widgets : RenderContext → Option (List (String × BlockContext))
  | [] => none
  | l :: _ => l.widgets

/-- `context.render_context[WIDGET_CONTEXT_KEY] = w` (writes topmost dict). -/
def RenderContext.set_widgets : RenderContext → List (String × BlockContext) → RenderContext
  | [], w => [{ blockContext := none, widgets := some w }]
  | l :: rest, w => { l with widgets := some w } :: rest

theorem get_widgets_set_widgets (rc : RenderContext) (w : List (String × BlockContext)) :
    (rc.set_widgets w).get_widgets = some w := by
  cases rc <;> rfl

/-! ## `using` (sniplates.py lines 91-119)

The `@contextmanager` generator: empty alias yields the context
untouched; otherwise it looks the alias up in the widget table, pushes a
render-context layer holding the alias's block set and the table, yields,
and pops.  **There is no try/finally around the yield**, so when the
`with` body raises, `gen.throw` re-raises at the yield point and the
trailing `pop()` is skipped.  The body `fn` threads the render context and
signals an exception through `Except`, the error carrying the (mutated)
render context at raise time, exactly as Python state survives an
exception. -/

def using_ {α : Type} (rc : RenderContext) (alias_ : String)
    (fn : RenderContext → Except (SnipError × RenderContext) (α × RenderContext)) :
    Except (SnipError × RenderContext) (α × RenderContext) :=
  if alias_ = "" then
    fn rc
  else
    match rc.get_widgets with
    | none => .error (.templateSyntaxError "No widget libraries loaded!", rc)
    | some widgets =>
      match alistGet widgets alias_ with
      | none => .error (.templateSyntaxError
          ("No widget library loaded for alias: " ++ pyRepr alias_), rc)
      | some block_set =>
        let rc1 := (RenderContext.set_bc (RCLayer.empty :: rc) block_set).set_widgets widgets
        match fn rc1 with
        | .ok (a, rc2) => .ok (a, rc2.tail)
        | .error e => .error e

/-! ## `find_block` (sniplates.py lines 122-134) -/

def find_block (rc : RenderContext) (names : List String) : Except SnipError BlockNode :=
  match rc.get_bc with
  | none => .error (.keyError "block_context")
  | some block_set =>
    match names.findSome? block_set.get_block with
    | some b => .ok b
    | none => .error (.templateSyntaxError
        ("No widget found for: " ++ pyReprStrTuple names))

/-- Helper: the empty-alias branch of `using` (line 98-99) yields the
context untouched and returns whatever the body produces. -/
theorem using_empty_eq {α : Type} (rc : RenderContext)
    (fn : RenderContext → Except (SnipError × RenderContext) (α × RenderContext)) :
    using_ rc "" fn = fn rc := by
  simp [using_]

/-- Helper: `find_block` with a single candidate that the active registry
defines. -/
theorem find_block_single (rc : RenderContext) (bs : BlockContext) (bn : String)
    (b : BlockNode) (hbs : rc.get_bc = some bs) (hb : bs.get_block bn = some b) :
    find_block rc [bn] = .ok b := by
  simp only [find_block, hbs, List.findSome?_cons, hb]

/-! ## Theorems for C3, C6, C1 -/

/-- C3: calling the Scope Switcher with the empty alias runs the wrapped
function on the unchanged environment and returns its result unaltered:
no layer is pushed, no registry swapped, and no library lookup happens at
all (in particular no "no widget libraries loaded" failure, whatever the
state of the widget table). -/
theorem using_empty_alias_passthrough {α : Type} (rc : RenderContext)
    (fn : RenderContext → Except (SnipError × RenderContext) (α × RenderContext)) :
    using_ rc "" fn = fn rc :=
  using_empty_eq rc fn

/-- C6: activating a non-empty alias fails with
`TemplateSyntaxError('No widget libraries loaded!')` when the widget
table was never created, and with `TemplateSyntaxError("No widget library
loaded for alias: '<alias>'")` — the message naming the missing alias —
when the table exists but lacks the alias; in both cases the render
context propagated with the error is the untouched input (no layer
pushed).  These are the spec's two `ConfigurationError` cases. -/
theorem using_unknown_alias_errors {α : Type} (rc : RenderContext) (alias_ : String)
    (fn : RenderContext → Except (SnipError × RenderContext) (α × RenderContext))
    (hne : alias_ ≠ "") :
    (rc.get_widgets = none →
      using_ rc alias_ fn
        = .error (.templateSyntaxError "No widget libraries loaded!", rc)) ∧
    (∀ w, rc.get_widgets = some w → alistGet w alias_ = none →
      using_ rc alias_ fn
        = .error (.templateSyntaxError
            ("No widget library loaded for alias: " ++ pyRepr alias_), rc)) := by
  constructor
  · intro h
    simp [using_, hne, h]
  · intro w hw ha
    simp [using_, hne, hw, ha]

/-- Witness for C6: with an empty render-context stack the table is
absent; with a table not containing `"zzz"` the alias-naming message is
raised.  Both errors carry the input context unchanged. -/
theorem using_unknown_alias_errors_witness :
    using_ (α := String) [] "zzz" (fun rc1 => .ok ("", rc1))
      = .error (.templateSyntaxError "No widget libraries loaded!", []) ∧
    using_ (α := String) [⟨none, some []⟩] "zzz" (fun rc1 => .ok ("", rc1))
      = .error (.templateSyntaxError
          ("No widget library loaded for alias: " ++ pyRepr "zzz"), [⟨none, some []⟩]) :=
  ⟨(using_unknown_alias_errors [] "zzz" _ (by decide)).1 rfl,
   (using_unknown_alias_errors [⟨none, some []⟩] "zzz" _ (by decide)).2 [] rfl rfl⟩

/-- C1 (code bug): the generator has no try/finally, so when the function
run inside the activated scope raises, the pushed layer is **not**
popped: the error propagates carrying the render context with the extra
layer still on top, and the active block registry after propagation is
the alias's registry, not the one active before activation.  Concrete
run: alias `"lib"` loaded, outer registry `outer`, body raising
`TemplateSyntaxError("boom")`. -/
theorem using_leaks_layer_on_error :
    using_ (α := String)
        [RCLayer.mk (some ⟨[("outer", [⟨"outer", 0⟩])]⟩)
          (some [("lib", ⟨[("blk", [⟨"blk", 1⟩])]⟩)])]
        "lib"
        (fun rc1 => .error (.templateSyntaxError "boom", rc1))
      = .error (.templateSyntaxError "boom",
          RCLayer.mk (some ⟨[("blk", [⟨"blk", 1⟩])]⟩)
              (some [("lib", ⟨[("blk", [⟨"blk", 1⟩])]⟩)]) ::
            [RCLayer.mk (some ⟨[("outer", [⟨"outer", 0⟩])]⟩)
              (some [("lib", ⟨[("blk", [⟨"blk", 1⟩])]⟩)])]) ∧
    RenderContext.get_bc
        (RCLayer.mk (some ⟨[("blk", [⟨"blk", 1⟩])]⟩)
            (some [("lib", ⟨[("blk", [⟨"blk", 1⟩])]⟩)]) ::
          [RCLayer.mk (some ⟨[("outer", [⟨"outer", 0⟩])]⟩)
            (some [("lib", ⟨[("blk", [⟨"blk", 1⟩])]⟩)])])
      ≠ RenderContext.get_bc
          [RCLayer.mk (some ⟨[("outer", [⟨"outer", 0⟩])]⟩)
            (some [("lib", ⟨[("blk", [⟨"blk", 1⟩])]⟩)])] :=
  ⟨by rfl, by decide⟩

/-! ## Theorems for C5 -/

theorem findSome?_eq_none_of_all_none {α β : Type} (f : α → Option β) (l : List α)
    (h : ∀ x ∈ l, f x = none) : l.findSome? f = none := by
  induction l with
  | nil => rfl
  | cons hd tl ih =>
    rw [List.findSome?_cons]
    rw [h hd (by simp)]
    exact ih (fun x hx => h x (by simp [hx]))

theorem findSome?_first_hit {α β : Type} (f : α → Option β) (pre post : List α)
    (n : α) (b : β) (hpre : ∀ m ∈ pre, f m = none) (hn : f n = some b) :
    (pre ++ n :: post).findSome? f = some b := by
  induction pre with
  | nil => simp [List.findSome?_cons, hn]
  | cons hd tl ih =>
    rw [List.cons_append, List.findSome?_cons, hpre hd (by simp)]
    exact ih (fun m hm => hpre m (by simp [hm]))

/-- C5: with a registry active, `find_block` probes the candidates in the
order given and returns the first definition found; it raises
`TemplateSyntaxError("No widget found for: <candidate tuple>")` — the
message listing the candidates — exactly when no candidate matches. -/
theorem find_block_spec (rc : RenderContext) (bs : BlockContext) (names : List String)
    (hbs : rc.get_bc = some bs) :
    (∀ (pre post : List String) (n : String) (b : BlockNode),
        names = pre ++ n :: post →
        (∀ m ∈ pre, bs.get_block m = none) →
        bs.get_block n = some b →
        find_block rc names = .ok b) ∧
    (find_block rc names
        = .error (.templateSyntaxError ("No widget found for: " ++ pyReprStrTuple names))
      ↔ ∀ n ∈ names, bs.get_block n = none) := by
  constructor
  · intro pre post n b hsplit hpre hn
    subst hsplit
    simp only [find_block, hbs]
    rw [findSome?_first_hit _ _ _ _ _ hpre hn]
  · constructor
    · intro herr
      rcases hsome' : names.findSome? bs.get_block with _ | b'
      · exact List.findSome?_eq_none_iff.mp hsome'
      · simp only [find_block, hbs, hsome'] at herr
        exact absurd herr (by simp)
    · intro hall
      simp only [find_block, hbs, findSome?_eq_none_of_all_none _ _ hall]

/-- Witness for C5: registry defining only `"b"`; probing `["a", "b"]`
skips `"a"` and returns `"b"`'s definition, probing `["z"]` raises the
listing error. -/
theorem find_block_spec_witness :
    find_block [⟨some ⟨[("b", [⟨"b", 1⟩])]⟩, none⟩] ["a", "b"] = .ok ⟨"b", 1⟩ ∧
    find_block [⟨some ⟨[("b", [⟨"b", 1⟩])]⟩, none⟩] ["z"]
      = .error (.templateSyntaxError ("No widget found for: " ++ pyReprStrTuple ["z"])) :=
  ⟨(find_block_spec [⟨some ⟨[("b", [⟨"b", 1⟩])]⟩, none⟩] ⟨[("b", [⟨"b", 1⟩])]⟩
        ["a", "b"] rfl).1 ["a"] [] "b" ⟨"b", 1⟩ rfl (by decide) (by decide),
   ((find_block_spec [⟨some ⟨[("b", [⟨"b", 1⟩])]⟩, none⟩] ⟨[("b", [⟨"b", 1⟩])]⟩
        ["z"] rfl).2).mpr (by decide)⟩

/-! ## `resolve_blocks` with its render-context side (lines 45-48, 74)
and `load_widgets` (sniplates.py lines 137-157)

`resolve_blocks` fetches (or lazily creates) the `BlockContext` under
`BLOCK_CONTEXT_KEY` and mutates it in place along the chain; the Python
object identity is modelled by returning the final registry and storing
it back.  `load_widgets` pops `_soft` from the kwargs (here a separate
argument), fetches or creates the widget table, and for each
`(alias, document)` pair — skipped when `_soft` and already bound —
resolves the document against a freshly pushed `BlockContext()` layer
(`with context.render_context.update(...)`) and stores the result under
the alias.  The pushed temporary layer is popped when the `with` exits,
leaving only the table update. -/

def resolve_blocks (doc : TemplateDoc) (rc : RenderContext) : BlockContext × RenderContext :=
  let bc := resolve_blocksChain doc ((rc.get_bc).getD BlockContext.empty)
  (bc, rc.set_bc bc)

def load_widgets (rc : RenderContext) (_soft : Bool)
    (kwargs : List (String × TemplateDoc)) : RenderContext :=
  let rc0 := if (rc.get_widgets).isSome then rc else rc.set_widgets []
  let widgets := kwargs.foldl
    (fun ws kv =>
      if _soft && (alistGet ws kv.1).isSome then ws
      else
        let blocks :=
          (resolve_blocks kv.2
            (RenderContext.set_bc (RCLayer.empty :: rc0) BlockContext.empty)).1
        alistSet ws kv.1 blocks)
    ((rc.get_widgets).getD [])
  rc0.set_widgets widgets

theorem load_widgets_skip (rc : RenderContext) (a : String) (doc : TemplateDoc)
    (h : (alistGet ((rc.get_widgets).getD []) a).isSome = true) :
    (load_widgets rc true [(a, doc)]).get_widgets = some ((rc.get_widgets).getD []) := by
  simp [load_widgets, h, get_widgets_set_widgets]

theorem load_widgets_store (rc : RenderContext) (a : String) (doc : TemplateDoc) (soft : Bool)
    (h : (soft && (alistGet ((rc.get_widgets).getD []) a).isSome) = false) :
    (load_widgets rc soft [(a, doc)]).get_widgets
      = some (alistSet ((rc.get_widgets).getD []) a
          (resolve_blocksChain doc BlockContext.empty)) := by
  simp only [load_widgets, List.foldl_cons, List.foldl_nil]
  rw [h]
  simp [get_widgets_set_widgets, resolve_blocks, RenderContext.set_bc, RenderContext.get_bc]

/-- C4: for a `load_widgets` pass, a pair whose alias is already bound is
skipped when `_soft` is set (the earlier binding is kept), otherwise the
document's resolved registry is stored under the alias, overwriting any
prior entry; consequently a soft load of `a := docX` followed by a soft
load of `a := docY` leaves `a` bound to `docX`'s registry. -/
theorem load_widgets_spec :
    (∀ (rc : RenderContext) (a : String) (doc : TemplateDoc) (reg : BlockContext),
        alistGet ((rc.get_widgets).getD []) a = some reg →
        alistGet (((load_widgets rc true [(a, doc)]).get_widgets).getD []) a = some reg) ∧
    (∀ (rc : RenderContext) (a : String) (doc : TemplateDoc) (soft : Bool),
        (soft = true → alistGet ((rc.get_widgets).getD []) a = none) →
        alistGet (((load_widgets rc soft [(a, doc)]).get_widgets).getD []) a
          = some (resolve_blocksChain doc BlockContext.empty)) ∧
    (∀ (rc : RenderContext) (a : String) (docX docY : TemplateDoc),
        alistGet ((rc.get_widgets).getD []) a = none →
        alistGet (((load_widgets (load_widgets rc true [(a, docX)]) true
            [(a, docY)]).get_widgets).getD []) a
          = some (resolve_blocksChain docX BlockContext.empty)) := by
  refine ⟨?_, ?_, ?_⟩
  · intro rc a doc reg h
    rw [load_widgets_skip rc a doc (by simp [h])]
    simpa using h
  · intro rc a doc soft h
    have hcond : (soft && (alistGet ((rc.get_widgets).getD []) a).isSome) = false := by
      cases soft with
      | false => rfl
      | true => simp [h rfl]
    rw [load_widgets_store rc a doc soft hcond]
    simp [alistGet_alistSet_self]
  · intro rc a docX docY h
    have h1 : alistGet (((load_widgets rc true [(a, docX)]).get_widgets).getD []) a
        = some (resolve_blocksChain docX BlockContext.empty) := by
      rw [load_widgets_store rc a docX true (by simp [h])]
      simp [alistGet_alistSet_self]
    rw [load_widgets_skip _ a docY (by simp [h1])]
    simpa using h1

/-- Witness for C4: starting from an empty render context, a soft load of
`a := docX` followed by a soft load of `a := docY` leaves `a` bound to
`docX`'s resolved registry. -/
theorem load_widgets_spec_witness :
    alistGet (((load_widgets (load_widgets [] true [("a", .base [⟨"x", 0⟩])]) true
        [("a", .base [⟨"x", 7⟩])]).get_widgets).getD []) "a"
      = some (resolve_blocksChain (.base [⟨"x", 0⟩]) BlockContext.empty) :=
  load_widgets_spec.2.2 [] "a" (.base [⟨"x", 0⟩]) (.base [⟨"x", 7⟩]) rfl

/-! ## The variable scope: Django's `Context` and template values

Unlike the render context, variable lookup searches the dict stack from
the most recently pushed layer downward (lexical shadowing);
`context.update(d)` pushes `d` and pops it when the `with` exits;
`context[k] = v` writes into the topmost dict.  Values are opaque
template values; strings are the only kind the module itself creates. -/

inductive Value where
  | str (s : String)
  | obj (tag : Nat)
deriving DecidableEq, Repr

abbrev Context := List (List (String × Value))

def Context.resolve : Context → String → Option Value
  | [], _ => none
  | layer :: rest, k =>
    match alistGet layer k with
    | some v => some v
    | none => Context.resolve rest k

def Context.push (ctx : Context) (layer : List (String × Value)) : Context :=
  layer :: ctx

def Context.setTop : Context → String → Value → Context
  | [], k, v => [[(k, v)]]
  | layer :: rest, k, v => alistSet layer k v :: rest

/-! ## `reuse` (sniplates.py lines 375-402)

Reads `BLOCK_CONTEXT_KEY` from the render context, falling back to a
fresh empty `BlockContext()` when absent (no widget-table indirection at
all); takes the first block of the list that `get_block` finds
(`template.Node` instances are always truthy, so `if block:` is a
`None`-test); returns `''` when none matches, otherwise renders the block
under the pushed overrides.  Block bodies are host objects; their
`render` is the supplied `renderBlock`. -/

def reuse (rc : RenderContext) (ctx : Context) (renderBlock : BlockNode → Context → String)
    (block_list : List String) (kwargs : List (String × Value)) : String :=
  let block_context := (rc.get_bc).getD BlockContext.empty
  match block_list.findSome? block_context.get_block with
  | none => ""
  | some block => renderBlock block (Context.push ctx kwargs)

theorem get_bc_set_widgets (rc : RenderContext) (w : List (String × BlockContext)) :
    (rc.set_widgets w).get_bc = rc.get_bc := by
  cases rc <;> rfl

/-- C8: `reuse` searches only the currently active registry — its result
is invariant under any change to the widget table and it never consults
an alias — renders the first matching candidate under the pushed
overrides, and returns the empty string instead of raising when no
candidate matches, including when no block registry is active at all. -/
theorem reuse_spec (rc : RenderContext) (ctx : Context)
    (renderBlock : BlockNode → Context → String)
    (block_list : List String) (kwargs : List (String × Value)) :
    (rc.get_bc = none → reuse rc ctx renderBlock block_list kwargs = "") ∧
    (∀ bs, rc.get_bc = some bs →
      (∀ n ∈ block_list, bs.get_block n = none) →
      reuse rc ctx renderBlock block_list kwargs = "") ∧
    (∀ bs (pre post : List String) (n : String) (b : BlockNode),
      rc.get_bc = some bs →
      block_list = pre ++ n :: post →
      (∀ m ∈ pre, bs.get_block m = none) →
      bs.get_block n = some b →
      reuse rc ctx renderBlock block_list kwargs
        = renderBlock b (Context.push ctx kwargs)) ∧
    (∀ w, reuse (rc.set_widgets w) ctx renderBlock block_list kwargs
        = reuse rc ctx renderBlock block_list kwargs) := by
  refine ⟨?_, ?_, ?_, ?_⟩
  · intro h
    simp only [reuse, h, Option.getD_none]
    rw [findSome?_eq_none_of_all_none BlockContext.empty.get_block block_list
      (fun n _ => rfl)]
  · intro bs hbs hall
    simp only [reuse, hbs, Option.getD_some]
    rw [findSome?_eq_none_of_all_none _ _ hall]
  · intro bs pre post n b hbs hsplit hpre hn
    subst hsplit
    simp only [reuse, hbs, Option.getD_some]
    rw [findSome?_first_hit _ _ _ _ _ hpre hn]
  · intro w
    simp only [reuse, get_bc_set_widgets]

/-- Witness for C8: with no registry key at all, reuse of `["x"]`
degrades to the empty string; with an active registry defining `"x"` but
not `"w"`, reuse of `["w", "x"]` renders `"x"`'s block under the pushed
overrides. -/
theorem reuse_spec_witness :
    reuse [] [] (fun _ _ => "R") ["x"] [] = "" ∧
    reuse [⟨some ⟨[("x", [⟨"x", 5⟩])]⟩, none⟩] [] (fun b _ => b.name) ["w", "x"] []
      = "x" :=
  ⟨(reuse_spec [] [] (fun _ _ => "R") ["x"] []).1 rfl,
   (reuse_spec [⟨some ⟨[("x", [⟨"x", 5⟩])]⟩, none⟩] [] (fun b _ => b.name)
       ["w", "x"] []).2.2.1 ⟨[("x", [⟨"x", 5⟩])]⟩ ["w"] [] "x" ⟨"x", 5⟩
     rfl rfl (by decide) (by decide)⟩

/-! ## `NestedWidget.render` (sniplates.py lines 218-247)

Resolves the widget reference, activates the alias scope, finds the
block, resolves the keyword overrides against the *caller's* context,
pushes them, renders the nested body in that overridden scope, pushes
`'content'` bound to the rendered body on top, renders the block, pops
both layers, and either emits the result or stores it in the caller's
topmost dict under `asvar`.  `widget`, the body `nodelist` and each
kwarg value are host `FilterExpression`/nodelist objects, modelled as
functions of the context; block bodies render through the host
`renderBlock`. -/

structure NestedWidget where
  widget : Context → String
  nodelist : Context → String
  kwargs : List (String × (Context → Value))
  asvar : Option String

def NestedWidget.render (nw : NestedWidget) (renderBlock : BlockNode → Context → String)
    (rc : RenderContext) (ctx : Context) :
    Except (SnipError × RenderContext) ((String × Context) × RenderContext) :=
  match parse_widget_name (nw.widget ctx) with
  | .error e => .error (e, rc)
  | .ok (alias_, block_name) =>
    using_ rc alias_ (fun rc1 =>
      match find_block rc1 [block_name] with
      | .error e => .error (e, rc1)
      | .ok block =>
        let kwargs := nw.kwargs.map (fun kv => (kv.1, kv.2 ctx))
        let content := nw.nodelist (Context.push ctx kwargs)
        let result := renderBlock block
          (Context.push (Context.push ctx kwargs) [("content", Value.str content)])
        match nw.asvar with
        | some v => .ok (("", Context.setTop ctx v (Value.str result)), rc1)
        | none => .ok ((result, ctx), rc1))

/-- C9: on the successful path (shown both for the empty alias and for a
loaded alias), the nested body is rendered in the scope already augmented
with the resolved overrides, and the block is rendered with one further
layer binding `"content"` to that string.  The equations hold for every
`nw`, so the layer of overrides passed to the block does not depend on
the body `nodelist`: changing the body changes only the `"content"`
value.  The last two conjuncts spell out the visibility: in the context
the block renders against, `"content"` resolves to the rendered body,
and every other name resolves exactly as in the overridden scope. -/
theorem nested_widget_content_spec :
    (∀ (nw : NestedWidget) (renderBlock : BlockNode → Context → String)
        (rc : RenderContext) (ctx : Context) (bs : BlockContext) (block : BlockNode)
        (bn : String),
      parse_widget_name (nw.widget ctx) = .ok ("", bn) →
      rc.get_bc = some bs →
      bs.get_block bn = some block →
      nw.asvar = none →
      nw.render renderBlock rc ctx
        = .ok ((renderBlock block
            (Context.push
              (Context.push ctx (nw.kwargs.map (fun kv => (kv.1, kv.2 ctx))))
              [("content", Value.str (nw.nodelist
                (Context.push ctx (nw.kwargs.map (fun kv => (kv.1, kv.2 ctx))))))]),
            ctx), rc)) ∧
    (∀ (nw : NestedWidget) (renderBlock : BlockNode → Context → String)
        (rc : RenderContext) (ctx : Context) (w : List (String × BlockContext))
        (bs : BlockContext) (block : BlockNode) (a bn : String),
      parse_widget_name (nw.widget ctx) = .ok (a, bn) →
      a ≠ "" →
      rc.get_widgets = some w →
      alistGet w a = some bs →
      bs.get_block bn = some block →
      nw.asvar = none →
      nw.render renderBlock rc ctx
        = .ok ((renderBlock block
            (Context.push
              (Context.push ctx (nw.kwargs.map (fun kv => (kv.1, kv.2 ctx))))
              [("content", Value.str (nw.nodelist
                (Context.push ctx (nw.kwargs.map (fun kv => (kv.1, kv.2 ctx))))))]),
            ctx), rc)) ∧
    (∀ (ctx : Context) (L : List (String × Value)) (s : String),
      Context.resolve (Context.push (Context.push ctx L) [("content", Value.str s)])
        "content" = some (Value.str s)) ∧
    (∀ (ctx : Context) (L : List (String × Value)) (v : Value) (k : String),
      k ≠ "content" →
      Context.resolve (Context.push (Context.push ctx L) [("content", v)]) k
        = Context.resolve (Context.push ctx L) k) := by
  refine ⟨?_, ?_, ?_, ?_⟩
  · intro nw renderBlock rc ctx bs block bn hparse hbs hblk hasvar
    unfold NestedWidget.render
    simp only [hparse, using_empty_eq, find_block_single rc bs bn block hbs hblk, hasvar]
  · intro nw renderBlock rc ctx w bs block a bn hparse hne hw ha hblk hasvar
    have hbc : ((RenderContext.set_bc (RCLayer.empty :: rc) bs).set_widgets w).get_bc
        = some bs := rfl
    unfold NestedWidget.render
    simp only [hparse]
    unfold using_
    rw [if_neg hne]
    simp only [hw, ha,
      find_block_single ((RenderContext.set_bc (RCLayer.empty :: rc) bs).set_widgets w)
        bs bn block hbc hblk,
      hasvar, List.tail_cons]
    rfl
  · intro ctx L s
    simp [Context.resolve, Context.push, alistGet]
  · intro ctx L v k hk
    simp [Context.resolve, Context.push, alistGet, Ne.symm hk]

/-- Witness for C9: a concrete nested widget with empty alias, one
override, body rendering `"INNER"`, and a block whose render echoes the
`"content"` variable; the result is `"INNER"` and the caller's scope and
render context come back unchanged. -/
theorem nested_widget_content_spec_witness :
    NestedWidget.render
        ⟨fun _ => ":blk", fun _ => "INNER", [("x", fun _ => Value.str "v")], none⟩
        (fun _ c => match Context.resolve c "content" with
          | some (Value.str s) => s
          | _ => "")
        [⟨some ⟨[("blk", [⟨"blk", 3⟩])]⟩, none⟩] []
      = .ok (("INNER", []), [⟨some ⟨[("blk", [⟨"blk", 3⟩])]⟩, none⟩]) := by
  have h := nested_widget_content_spec.1
    ⟨fun _ => ":blk", fun _ => "INNER", [("x", fun _ => Value.str "v")], none⟩
    (fun _ c => match Context.resolve c "content" with
      | some (Value.str s) => s
      | _ => "")
    [⟨some ⟨[("blk", [⟨"blk", 3⟩])]⟩, none⟩] []
    ⟨[("blk", [⟨"blk", 3⟩])]⟩ ⟨"blk", 3⟩ "blk" rfl rfl (by decide) rfl
  simpa [Context.resolve, Context.push, alistGet] using h

end Sniplates
